import Mathlib

/-!
Shallow embedding of the Paper Embedded Wallet wagmi connector
(src/packages/embedded-wallet-service-wagmi/src/lib/connector.ts).

The connector is a stateful adapter over an external wallet SDK.  Its
observable state is the set of private fields of the class
(cached user session, cached ethers provider, static options).  Each
async method is embedded as a function from the current state and the
responses the external SDK would give at the points where the method
awaits it, to a result together with the successor state.  JavaScript
exception semantics are kept: a method that throws still keeps every
field mutation performed before the throw, so each method returns
both an Except result and the new state.

The external SDK handle itself is not part of the state: it is opaque
and all of its observable behaviour enters through the per-call
response arguments.
-/

namespace PaperWagmi

/-- UserStatus enum of the embedded-wallet SDK. -/
inductive UserStatus where
  | loggedOut
  | loggedInWalletUninitialized
  | loggedInNewDevice
  | loggedInWalletInitialized
deriving DecidableEq, Repr

/-- Chain metadata record (wagmi/chains entry): display name and numeric chain id. -/
structure ChainDesc where
  name : String
  id : Nat
deriving DecidableEq, Repr

def mainnet : ChainDesc := { name := "Ethereum", id := 1 }

def goerli : ChainDesc := { name := "Goerli", id := 5 }

def polygon : ChainDesc := { name := "Polygon", id := 137 }

def polygonMumbai : ChainDesc := { name := "Polygon Mumbai", id := 80001 }

def avalanche : ChainDesc := { name := "Avalanche", id := 43114 }

/-- An ethers.js provider handle, identified opaquely. -/
structure EthersProvider where
  pid : Nat
deriving DecidableEq, Repr

/-- An ethers.js signer: may or may not carry a provider. -/
structure Signer where
  provider : Option EthersProvider

/-- Options passed to wallet.getEthersJsSigner. -/
structure SignerOptions where
  rpcEndpoint : String

/-- The wallet attached to an initialized user: derives a signer from options. -/
structure Wallet where
  getEthersJsSigner : Option SignerOptions → Signer

/-- InitializedUser of the SDK, as used by the connector: wallet address plus wallet. -/
structure InitializedUser where
  walletAddress : String
  wallet : Wallet

/-- Response of the SDK getUser call: a status, and the user payload that the
connector stores as the session when the status is fully initialized. -/
structure SdkUserResp where
  status : UserStatus
  walletAddress : String
  wallet : Wallet

/-- The user payload of an SDK getUser response, viewed as the cached session. -/
def SdkUserResp.toInitializedUser (r : SdkUserResp) : InitializedUser :=
  { walletAddress := r.walletAddress, wallet := r.wallet }

/-- Response of auth.loginWithPaperModal: the connector only reads resp.user.status. -/
structure LoginResp where
  userStatus : UserStatus

/-- Errors the connector can reject with. -/
inductive ConnError where
  | noClientId
  | unsupportedChain
  | notLoggedIn
  | failedSigner
  | unexpectedUserStatus
  | userRejected (inner : ConnError)
  | sdkError (msg : String)
deriving DecidableEq, Repr

/-- The message text of each error, as in the source. -/
def errMessage : ConnError → String
  | .noClientId => "No client ID provided. Provide your Paper Embedded Wallet client ID found in the Developer Dashboard."
  | .unsupportedChain => "Unsupported chain. See https://docs.withpaper.com/reference/embedded-wallet-service-faq for supported chains."
  | .notLoggedIn => "User is not logged in. Try calling \"connect()\" first."
  | .failedSigner => "Failed to get Signer. Try calling \"connect()\" first."
  | .unexpectedUserStatus => "Unexpected user status after logging in. Please try logging in again."
  | .userRejected _ => "User rejected request"
  | .sdkError m => m

/-- Kinds of provider listeners connect registers. -/
inductive ListenerKind where
  | accountsChanged
  | chainChanged
  | providerDisconnect
deriving DecidableEq, Repr

/-- Constructor configuration: client credential, chain name, optional RPC override. -/
structure Config where
  clientId : String
  chain : String
  rpcEndpoint : Option String

/-- The connector instance state: its private fields plus the listener
registrations it has made on its provider. -/
structure ConnectorState where
  ready : Bool
  clientId : String
  chain : String
  rpcEndpoint : Option String
  chains : List ChainDesc
  provider : Option EthersProvider
  user : Option InitializedUser
  listeners : List ListenerKind

/-- The record connect resolves with. -/
structure ConnectorData where
  provider : EthersProvider
  chainId : Nat
  unsupported : Bool
  account : String

/-- Events the connector emits to the framework. -/
inductive WagmiEvent where
  | changeAccount (account : String)
  | disconnected
deriving DecidableEq, Repr

/-- JavaScript String.prototype.startsWith: character-prefix test. -/
def strStartsWith (a p : String) : Bool :=
  p.data.isPrefixOf a.data

/-- The address normalization of getAccount, line 83 of the source. -/
def normalizeAddress (a : String) : String :=
  if strStartsWith a "0x" then a else "0x" ++ a

/-- getChain: the static chain-name lookup, throwing on unrecognized names. -/
def getChain (chain : String) : Except ConnError ChainDesc :=
  if chain = "Ethereum" then .ok mainnet
  else if chain = "Goerli" then .ok goerli
  else if chain = "Polygon" then .ok polygon
  else if chain = "Mumbai" then .ok polygonMumbai
  else if chain = "Avalanche" then .ok avalanche
  else .error .unsupportedChain

/-- The supported chain names. -/
def supportedChains : List String :=
  ["Ethereum", "Goerli", "Polygon", "Mumbai", "Avalanche"]

/-- The constructor: rejects a falsy (empty/absent) client id, resolves the
chain name (throwing on an unsupported one), and initializes the fields.
It takes no SDK responses: no network or SDK call can influence it. -/
def mkConnector (config : Config) (isServer : Bool) : Except ConnError ConnectorState :=
  if config.clientId = "" then .error .noClientId
  else
    match getChain config.chain with
    | .error e => .error e
    | .ok c =>
      .ok { ready := !isServer
            clientId := config.clientId
            chain := config.chain
            rpcEndpoint := config.rpcEndpoint
            chains := [c]
            provider := none
            user := none
            listeners := [] }

/-- getUser: memoized session retrieval.  Returns the cached session when
present; otherwise consults the SDK (response q) and caches the payload
only when the status is fully initialized, returning null otherwise. -/
def getUser (s : ConnectorState) (q : Except String SdkUserResp) :
    Except ConnError (Option InitializedUser) × ConnectorState :=
  match s.user with
  | some u => (.ok (some u), s)
  | none =>
    match q with
    | .error m => (.error (.sdkError m), s)
    | .ok resp =>
      if resp.status = UserStatus.loggedInWalletInitialized then
        (.ok (some resp.toInitializedUser), { s with user := some resp.toInitializedUser })
      else
        (.ok none, s)

/-- getAccount: address of the session, hex-prefix normalized;
rejects when no session exists. -/
def getAccount (s : ConnectorState) (q : Except String SdkUserResp) :
    Except ConnError String × ConnectorState :=
  match getUser s q with
  | (.error e, t) => (.error e, t)
  | (.ok none, t) => (.error .notLoggedIn, t)
  | (.ok (some u), t) => (.ok (normalizeAddress u.walletAddress), t)

/-- getSigner: derives a signer from the session wallet, passing the RPC
override only when it is truthy; rejects when no session exists. -/
def getSigner (s : ConnectorState) (q : Except String SdkUserResp) :
    Except ConnError Signer × ConnectorState :=
  match getUser s q with
  | (.error e, t) => (.error e, t)
  | (.ok none, t) => (.error .notLoggedIn, t)
  | (.ok (some u), t) =>
    let signerOptions : Option SignerOptions :=
      match s.rpcEndpoint with
      | some r => if r = "" then none else some { rpcEndpoint := r }
      | none => none
    (.ok (u.wallet.getEthersJsSigner signerOptions), t)

/-- getProvider: returns the cached provider when present (touching neither
the session nor the SDK); otherwise extracts and caches the signer provider. -/
def getProvider (s : ConnectorState) (q : Except String SdkUserResp) :
    Except ConnError EthersProvider × ConnectorState :=
  match s.provider with
  | some p => (.ok p, s)
  | none =>
    match getSigner s q with
    | (.error e, t) => (.error e, t)
    | (.ok sg, t) =>
      match sg.provider with
      | none => (.error .failedSigner, t)
      | some p => (.ok p, { t with provider := some p })

/-- isAuthorized: truthiness of the session getUser yields. -/
def isAuthorized (s : ConnectorState) (q : Except String SdkUserResp) :
    Except ConnError Bool × ConnectorState :=
  match getUser s q with
  | (.error e, t) => (.error e, t)
  | (.ok u, t) => (.ok u.isSome, t)

/-- disconnect: awaits SDK logout (response lo), then nulls the cached
session.  A failed logout propagates and leaves the session in place. -/
def disconnect (s : ConnectorState) (lo : Except String Unit) :
    Except ConnError Unit × ConnectorState :=
  match lo with
  | .error m => (.error (.sdkError m), s)
  | .ok _ => (.ok (), { s with user := none })

/-- getChainId: resolved from the static configuration only. -/
def getChainId (s : ConnectorState) : Except ConnError Nat :=
  (getChain s.chain).map fun c => c.id

/-- The login phase of connect: skipped when already authorized; otherwise the
interactive login must resolve with the fully-initialized status, and any
failure (rejection or wrong status) is wrapped in the user-rejection error. -/
def loginStep (auth : Bool) (lg : Except String LoginResp) : Except ConnError Unit :=
  if auth then .ok ()
  else
    match lg with
    | .error m => .error (.userRejected (.sdkError m))
    | .ok resp =>
      if resp.userStatus = UserStatus.loggedInWalletInitialized then .ok ()
      else .error (.userRejected .unexpectedUserStatus)

/-- Registration of the three provider listeners done by connect. -/
def addListeners (s : ConnectorState) : ConnectorState :=
  { s with listeners := s.listeners ++
    [ListenerKind.accountsChanged, ListenerKind.chainChanged, ListenerKind.providerDisconnect] }

/-- connect: checks authorization (SDK response q1); when unauthenticated runs
the interactive login (response lg); then obtains the provider (session
response q2), registers the three provider listeners, and resolves with
provider, chain id (never marked unsupported) and account (response q3). -/
def connect (s : ConnectorState) (q1 : Except String SdkUserResp)
    (lg : Except String LoginResp) (q2 : Except String SdkUserResp)
    (q3 : Except String SdkUserResp) :
    Except ConnError ConnectorData × ConnectorState :=
  match isAuthorized s q1 with
  | (.error e, s1) => (.error e, s1)
  | (.ok auth, s1) =>
    match loginStep auth lg with
    | .error e => (.error e, s1)
    | .ok _ =>
      match getProvider s1 q2 with
      | (.error e, s2) => (.error e, s2)
      | (.ok p, s2) =>
        match getChainId (addListeners s2) with
        | .error e => (.error e, addListeners s2)
        | .ok cid =>
          match getAccount (addListeners s2) q3 with
          | (.error e, s4) => (.error e, s4)
          | (.ok acc, s4) =>
            (.ok { provider := p, chainId := cid, unsupported := false, account := acc }, s4)

/-- onAccountsChanged handler: emits disconnect when the first account is
absent or falsy, otherwise a change event carrying it. -/
def onAccountsChanged (accounts : List String) : WagmiEvent :=
  match accounts.head? with
  | none => .disconnected
  | some a => if a = "" then .disconnected else .changeAccount a

/-- The operations of the connector, each carrying the SDK responses it
consumes, for stating state-evolution invariants uniformly. -/
inductive Op where
  | opAccount (q : Except String SdkUserResp)
  | opSigner (q : Except String SdkUserResp)
  | opProvider (q : Except String SdkUserResp)
  | opAuthorized (q : Except String SdkUserResp)
  | opUser (q : Except String SdkUserResp)
  | opConnect (q1 : Except String SdkUserResp) (lg : Except String LoginResp)
      (q2 : Except String SdkUserResp) (q3 : Except String SdkUserResp)
  | opDisconnect (lo : Except String Unit)
  | opChainId
  | opAccountsChanged (accounts : List String)

/-- The state after running an operation. -/
def runOp : Op → ConnectorState → ConnectorState
  | .opAccount q, s => (getAccount s q).2
  | .opSigner q, s => (getSigner s q).2
  | .opProvider q, s => (getProvider s q).2
  | .opAuthorized q, s => (isAuthorized s q).2
  | .opUser q, s => (getUser s q).2
  | .opConnect q1 lg q2 q3, s => (connect s q1 lg q2 q3).2
  | .opDisconnect lo, s => (disconnect s lo).2
  | .opChainId, s => s
  | .opAccountsChanged _, s => s

/-- The SDK getUser responses an operation consumes. -/
def opUserQueries : Op → List (Except String SdkUserResp)
  | .opAccount q => [q]
  | .opSigner q => [q]
  | .opProvider q => [q]
  | .opAuthorized q => [q]
  | .opUser q => [q]
  | .opConnect q1 _ q2 q3 => [q1, q2, q3]
  | .opDisconnect _ => []
  | .opChainId => []
  | .opAccountsChanged _ => []

/-- Whether the operation is the explicit disconnect. -/
def isDiscOp : Op → Bool
  | .opDisconnect _ => true
  | _ => false

/-- How the cached-session field may evolve across an operation that consumed
the SDK getUser responses qs: it is unchanged, or it was empty and got set to
the payload of a fully-initialized response among qs. -/
def UserEvol (s t : ConnectorState) (qs : List (Except String SdkUserResp)) : Prop :=
  t.user = s.user ∨
  (s.user = none ∧ ∃ resp, Except.ok resp ∈ qs ∧
    resp.status = UserStatus.loggedInWalletInitialized ∧
    t.user = some resp.toInitializedUser)

/-! Concrete fixtures, used by counterexamples and witnesses. -/

/-- A wallet whose signer carries a provider handle. -/
def wallet0 : Wallet :=
  { getEthersJsSigner := fun _ => { provider := some { pid := 7 } } }

def provider0 : EthersProvider := { pid := 7 }

def user0 : InitializedUser := { walletAddress := "abc123", wallet := wallet0 }

/-- An SDK response with a logged-out status. -/
def respLoggedOut : SdkUserResp :=
  { status := UserStatus.loggedOut, walletAddress := "", wallet := wallet0 }

/-- An SDK response with a fully-initialized status. -/
def respInit : SdkUserResp :=
  { status := UserStatus.loggedInWalletInitialized, walletAddress := "abc123", wallet := wallet0 }

def cfgOK : Config := { clientId := "cid", chain := "Polygon", rpcEndpoint := none }

/-- The state mkConnector cfgOK false produces. -/
def sFresh : ConnectorState :=
  { ready := true
    clientId := "cid"
    chain := "Polygon"
    rpcEndpoint := none
    chains := [polygon]
    provider := none
    user := none
    listeners := [] }

/-- A state as after a successful connect: session and provider cached,
listeners registered. -/
def sConnected : ConnectorState :=
  { ready := true
    clientId := "cid"
    chain := "Polygon"
    rpcEndpoint := none
    chains := [polygon]
    provider := some provider0
    user := some user0
    listeners := [ListenerKind.accountsChanged, ListenerKind.chainChanged, ListenerKind.providerDisconnect] }

/-! Helper lemmas about getUser and the resulting state of each method. -/

theorem getUser_cached (s : ConnectorState) (q : Except String SdkUserResp)
    (u : InitializedUser) (h : s.user = some u) : getUser s q = (.ok (some u), s) := by
  simp only [getUser, h]

theorem getUser_sdkFail (s : ConnectorState) (m : String) (h : s.user = none) :
    getUser s (.error m) = (.error (.sdkError m), s) := by
  simp only [getUser, h]

theorem getUser_hit (s : ConnectorState) (resp : SdkUserResp) (h : s.user = none)
    (hs : resp.status = UserStatus.loggedInWalletInitialized) :
    getUser s (.ok resp) =
      (.ok (some resp.toInitializedUser), { s with user := some resp.toInitializedUser }) := by
  simp only [getUser, h, if_pos hs]

theorem getUser_miss (s : ConnectorState) (resp : SdkUserResp) (h : s.user = none)
    (hs : resp.status ≠ UserStatus.loggedInWalletInitialized) :
    getUser s (.ok resp) = (.ok none, s) := by
  simp only [getUser, h, if_neg hs]

theorem getAccount_state (s : ConnectorState) (q : Except String SdkUserResp) :
    (getAccount s q).2 = (getUser s q).2 := by
  unfold getAccount
  split <;> simp_all

theorem getSigner_state (s : ConnectorState) (q : Except String SdkUserResp) :
    (getSigner s q).2 = (getUser s q).2 := by
  unfold getSigner
  split <;> simp_all

theorem isAuthorized_state (s : ConnectorState) (q : Except String SdkUserResp) :
    (isAuthorized s q).2 = (getUser s q).2 := by
  unfold isAuthorized
  split <;> simp_all

theorem addListeners_user (s : ConnectorState) : (addListeners s).user = s.user := rfl

/-! The UserEvol calculus: how the cached-session field evolves. -/

theorem userEvol_rfl (s : ConnectorState) (qs : List (Except String SdkUserResp)) :
    UserEvol s s qs := Or.inl rfl

theorem userEvol_user_eq {s t t2 : ConnectorState} {qs : List (Except String SdkUserResp)}
    (h : t2.user = t.user) (he : UserEvol s t qs) : UserEvol s t2 qs := by
  rcases he with h1 | ⟨hn, resp, hm, hs, ht⟩
  · exact Or.inl (h.trans h1)
  · exact Or.inr ⟨hn, resp, hm, hs, h.trans ht⟩

theorem userEvol_mono {s t : ConnectorState} {qs rs : List (Except String SdkUserResp)}
    (hsub : ∀ x, x ∈ qs → x ∈ rs) (h : UserEvol s t qs) : UserEvol s t rs := by
  rcases h with h1 | ⟨hn, resp, hm, hs, ht⟩
  · exact Or.inl h1
  · exact Or.inr ⟨hn, resp, hsub _ hm, hs, ht⟩

theorem userEvol_trans {s t u : ConnectorState} {qs : List (Except String SdkUserResp)}
    (h1 : UserEvol s t qs) (h2 : UserEvol t u qs) : UserEvol s u qs := by
  rcases h1 with e1 | ⟨hn1, resp1, hm1, hs1, ht1⟩
  · rcases h2 with e2 | ⟨hn2, resp2, hm2, hs2, hu2⟩
    · exact Or.inl (e2.trans e1)
    · exact Or.inr ⟨e1 ▸ hn2, resp2, hm2, hs2, hu2⟩
  · rcases h2 with e2 | ⟨hn2, resp2, hm2, hs2, hu2⟩
    · exact Or.inr ⟨hn1, resp1, hm1, hs1, e2.trans ht1⟩
    · rw [ht1] at hn2
      cases hn2

theorem userEvol_getUser (s : ConnectorState) (q : Except String SdkUserResp) :
    UserEvol s (getUser s q).2 [q] := by
  rcases h : s.user with _ | u
  · rcases q with m | resp
    · rw [getUser_sdkFail s m h]
      exact userEvol_rfl s _
    · by_cases hs : resp.status = UserStatus.loggedInWalletInitialized
      · rw [getUser_hit s resp h hs]
        exact Or.inr ⟨h, resp, by simp, hs, rfl⟩
      · rw [getUser_miss s resp h hs]
        exact userEvol_rfl s _
  · rw [getUser_cached s q u h]
    exact userEvol_rfl s _

theorem userEvol_getAccount (s : ConnectorState) (q : Except String SdkUserResp) :
    UserEvol s (getAccount s q).2 [q] := by
  rw [getAccount_state]
  exact userEvol_getUser s q

theorem userEvol_getSigner (s : ConnectorState) (q : Except String SdkUserResp) :
    UserEvol s (getSigner s q).2 [q] := by
  rw [getSigner_state]
  exact userEvol_getUser s q

theorem userEvol_isAuthorized (s : ConnectorState) (q : Except String SdkUserResp) :
    UserEvol s (isAuthorized s q).2 [q] := by
  rw [isAuthorized_state]
  exact userEvol_getUser s q

theorem userEvol_getProvider (s : ConnectorState) (q : Except String SdkUserResp) :
    UserEvol s (getProvider s q).2 [q] := by
  unfold getProvider
  split
  · exact userEvol_rfl s _
  · split
    · next e t heq =>
      have ht : t = (getSigner s q).2 := by rw [heq]
      rw [ht]
      exact userEvol_getSigner s q
    · next sg t heq =>
      have ht : t = (getSigner s q).2 := by rw [heq]
      split
      · rw [ht]
        exact userEvol_getSigner s q
      · refine userEvol_user_eq ?_ (ht ▸ userEvol_getSigner s q)
        rfl

theorem userEvol_connect (s : ConnectorState) (q1 : Except String SdkUserResp)
    (lg : Except String LoginResp) (q2 : Except String SdkUserResp)
    (q3 : Except String SdkUserResp) :
    UserEvol s (connect s q1 lg q2 q3).2 [q1, q2, q3] := by
  have sub1 : ∀ x, x ∈ [q1] → x ∈ [q1, q2, q3] := by intro x hx; simp_all
  have sub2 : ∀ x, x ∈ [q2] → x ∈ [q1, q2, q3] := by intro x hx; simp_all
  have sub3 : ∀ x, x ∈ [q3] → x ∈ [q1, q2, q3] := by intro x hx; simp_all
  unfold connect
  split
  · next e s1 heq =>
    have h1 : s1 = (isAuthorized s q1).2 := by rw [heq]
    rw [h1]
    exact userEvol_mono sub1 (userEvol_isAuthorized s q1)
  · next auth s1 heq =>
    have h1 : UserEvol s s1 [q1, q2, q3] := by
      have hs1 : s1 = (isAuthorized s q1).2 := by rw [heq]
      rw [hs1]
      exact userEvol_mono sub1 (userEvol_isAuthorized s q1)
    split
    · exact h1
    · split
      · next e s2 heq2 =>
        have hs2 : s2 = (getProvider s1 q2).2 := by rw [heq2]
        exact userEvol_trans h1 (hs2 ▸ userEvol_mono sub2 (userEvol_getProvider s1 q2))
      · next p s2 heq2 =>
        have h2 : UserEvol s1 s2 [q1, q2, q3] := by
          have hs2 : s2 = (getProvider s1 q2).2 := by rw [heq2]
          exact hs2 ▸ userEvol_mono sub2 (userEvol_getProvider s1 q2)
        have h2L : UserEvol s1 (addListeners s2) [q1, q2, q3] :=
          userEvol_user_eq (addListeners_user s2) h2
        split
        · exact userEvol_trans h1 h2L
        · split
          · next e s4 heq4 =>
            have hs4 : s4 = (getAccount (addListeners s2) q3).2 := by rw [heq4]
            exact userEvol_trans h1 (userEvol_trans h2L
              (hs4 ▸ userEvol_mono sub3 (userEvol_getAccount (addListeners s2) q3)))
          · next acc s4 heq4 =>
            have hs4 : s4 = (getAccount (addListeners s2) q3).2 := by rw [heq4]
            exact userEvol_trans h1 (userEvol_trans h2L
              (hs4 ▸ userEvol_mono sub3 (userEvol_getAccount (addListeners s2) q3)))

/-- The session-cache invariant for every operation: across any operation the
cached session is unchanged, or was set from empty to the payload of a
fully-initialized SDK response the operation consumed; the sole exception is
the explicit disconnect, which clears it. -/
theorem runOp_userEvol (op : Op) (s : ConnectorState) :
    UserEvol s (runOp op s) (opUserQueries op) ∨
      (isDiscOp op = true ∧ (runOp op s).user = none) := by
  cases op with
  | opAccount q => exact Or.inl (userEvol_getAccount s q)
  | opSigner q => exact Or.inl (userEvol_getSigner s q)
  | opProvider q => exact Or.inl (userEvol_getProvider s q)
  | opAuthorized q => exact Or.inl (userEvol_isAuthorized s q)
  | opUser q => exact Or.inl (userEvol_getUser s q)
  | opConnect q1 lg q2 q3 => exact Or.inl (userEvol_connect s q1 lg q2 q3)
  | opDisconnect lo =>
    cases lo with
    | error m => exact Or.inl (userEvol_rfl s _)
    | ok v => exact Or.inr ⟨rfl, rfl⟩
  | opChainId => exact Or.inl (userEvol_rfl s _)
  | opAccountsChanged accounts => exact Or.inl (userEvol_rfl s _)

/-! Result lemmas for the individual methods. -/

theorem getAccount_noSession (s : ConnectorState) (resp : SdkUserResp)
    (h : s.user = none) (hs : resp.status ≠ UserStatus.loggedInWalletInitialized) :
    getAccount s (.ok resp) = (.error .notLoggedIn, s) := by
  simp only [getAccount, getUser_miss s resp h hs]

theorem getAccount_cached (s : ConnectorState) (q : Except String SdkUserResp)
    (u : InitializedUser) (h : s.user = some u) :
    getAccount s q = (.ok (normalizeAddress u.walletAddress), s) := by
  simp only [getAccount, getUser_cached s q u h]

theorem getAccount_fresh (s : ConnectorState) (resp : SdkUserResp)
    (h : s.user = none) (hs : resp.status = UserStatus.loggedInWalletInitialized) :
    getAccount s (.ok resp) = (.ok (normalizeAddress resp.walletAddress),
      { s with user := some resp.toInitializedUser }) := by
  simp only [getAccount, getUser_hit s resp h hs]
  rfl

theorem getSigner_noSession (s : ConnectorState) (resp : SdkUserResp)
    (h : s.user = none) (hs : resp.status ≠ UserStatus.loggedInWalletInitialized) :
    getSigner s (.ok resp) = (.error .notLoggedIn, s) := by
  simp only [getSigner, getUser_miss s resp h hs]

theorem getProvider_cached (s : ConnectorState) (q : Except String SdkUserResp)
    (p : EthersProvider) (hp : s.provider = some p) :
    getProvider s q = (.ok p, s) := by
  simp only [getProvider, hp]

theorem getProvider_noSession (s : ConnectorState) (resp : SdkUserResp)
    (h : s.user = none) (hp : s.provider = none)
    (hs : resp.status ≠ UserStatus.loggedInWalletInitialized) :
    getProvider s (.ok resp) = (.error .notLoggedIn, s) := by
  simp only [getProvider, hp, getSigner_noSession s resp h hs]

theorem isAuthorized_cached (s : ConnectorState) (q : Except String SdkUserResp)
    (u : InitializedUser) (h : s.user = some u) :
    isAuthorized s q = (.ok true, s) := by
  simp only [isAuthorized, getUser_cached s q u h, Option.isSome_some]

theorem isAuthorized_hit (s : ConnectorState) (resp : SdkUserResp)
    (h : s.user = none) (hs : resp.status = UserStatus.loggedInWalletInitialized) :
    isAuthorized s (.ok resp) = (.ok true, { s with user := some resp.toInitializedUser }) := by
  simp only [isAuthorized, getUser_hit s resp h hs, Option.isSome_some]

theorem isAuthorized_noSession (s : ConnectorState) (resp : SdkUserResp)
    (h : s.user = none) (hs : resp.status ≠ UserStatus.loggedInWalletInitialized) :
    isAuthorized s (.ok resp) = (.ok false, s) := by
  simp only [isAuthorized, getUser_miss s resp h hs, Option.isSome_none]

theorem loginStep_false_badStatus (lr : LoginResp)
    (hlr : lr.userStatus ≠ UserStatus.loggedInWalletInitialized) :
    loginStep false (.ok lr) = .error (.userRejected .unexpectedUserStatus) := by
  simp [loginStep, hlr]

theorem loginStep_false_loginFail (m : String) :
    loginStep false (.error m) = .error (.userRejected (.sdkError m)) := by
  simp [loginStep]

theorem getChain_unsupported (chain : String) (h : chain ∉ supportedChains) :
    getChain chain = .error .unsupportedChain := by
  simp only [supportedChains, List.mem_cons, List.not_mem_nil, or_false, not_or] at h
  obtain ⟨h1, h2, h3, h4, h5⟩ := h
  simp only [getChain, if_neg h1, if_neg h2, if_neg h3, if_neg h4, if_neg h5]

theorem mkConnector_noClientId (cfg : Config) (b : Bool) (h : cfg.clientId = "") :
    mkConnector cfg b = .error .noClientId := by
  simp only [mkConnector, if_pos h]

theorem mkConnector_badChain (cfg : Config) (b : Bool) (h : cfg.clientId ≠ "")
    (h2 : cfg.chain ∉ supportedChains) :
    mkConnector cfg b = .error .unsupportedChain := by
  simp only [mkConnector, if_neg h, getChain_unsupported cfg.chain h2]

theorem mkConnector_ok_fields (cfg : Config) (b : Bool) (s : ConnectorState)
    (h : mkConnector cfg b = .ok s) :
    s.chain = cfg.chain ∧ s.user = none ∧ s.provider = none ∧ s.listeners = [] ∧
      s.ready = !b ∧ s.clientId = cfg.clientId ∧ s.rpcEndpoint = cfg.rpcEndpoint ∧
      ∃ c, getChain cfg.chain = .ok c ∧ s.chains = [c] := by
  by_cases hc : cfg.clientId = ""
  · rw [mkConnector_noClientId cfg b hc] at h
    cases h
  · unfold mkConnector at h
    rw [if_neg hc] at h
    rcases hg : getChain cfg.chain with e | c
    · simp only [hg] at h
      exact Except.noConfusion h
    · simp only [hg] at h
      injection h with h2
      subst h2
      exact ⟨rfl, rfl, rfl, rfl, rfl, rfl, rfl, c, rfl, rfl⟩

/-- The connected state after a disconnect: the session is cleared but the
provider handle stays cached. -/
def sDisconnected : ConnectorState := { sConnected with user := none }

/-! Claim theorems. -/

/-- Claim C1, counterexample: the claim quantifies over every state with no
active session, but after a disconnect from a connected state the session is
gone (the cache is empty and the SDK reports logged-out, so isAuthorized is
false) while getProvider still resolves with the cached provider instead of
rejecting with the unauthenticated-access error. -/
theorem c1_counterexample :
    disconnect sConnected (.ok ()) = (.ok (), sDisconnected) ∧
    sDisconnected.user = none ∧
    (isAuthorized sDisconnected (.ok respLoggedOut)).1 = .ok false ∧
    (getProvider sDisconnected (.ok respLoggedOut)).1 = .ok provider0 ∧
    (getProvider sDisconnected (.ok respLoggedOut)).1 ≠ .error ConnError.notLoggedIn := by
  refine ⟨rfl, rfl, rfl, rfl, ?_⟩
  intro hcon
  exact Except.noConfusion hcon

/-- Claim C1, amended: whenever no active session exists (the session cache is
empty and the SDK reports a status that is not fully initialized), getAccount
and getSigner reject with the unauthenticated-access error, and getProvider
rejects likewise provided no provider has been cached yet — which always holds
before any successful connect; the error instructs the caller to connect
first. -/
theorem c1_unauthenticated_access (s : ConnectorState) (resp : SdkUserResp)
    (h : s.user = none) (hs : resp.status ≠ UserStatus.loggedInWalletInitialized) :
    (getAccount s (.ok resp)).1 = .error .notLoggedIn ∧
    (getSigner s (.ok resp)).1 = .error .notLoggedIn ∧
    (s.provider = none → (getProvider s (.ok resp)).1 = .error .notLoggedIn) ∧
    errMessage .notLoggedIn = "User is not logged in. Try calling \"connect()\" first." := by
  refine ⟨?_, ?_, fun hp => ?_, rfl⟩
  · rw [getAccount_noSession s resp h hs]
  · rw [getSigner_noSession s resp h hs]
  · rw [getProvider_noSession s resp h hp hs]

/-- Claim C1, witness: a freshly constructed connector with a logged-out SDK
rejects all three accessors. -/
theorem c1_unauthenticated_access_witness :
    (getAccount sFresh (.ok respLoggedOut)).1 = .error .notLoggedIn ∧
    (getSigner sFresh (.ok respLoggedOut)).1 = .error .notLoggedIn ∧
    (getProvider sFresh (.ok respLoggedOut)).1 = .error .notLoggedIn :=
  have h := c1_unauthenticated_access sFresh respLoggedOut rfl (by decide)
  ⟨h.1, h.2.1, h.2.2.1 rfl⟩

/-- Claim C2: getAccount returns the session wallet address normalized to a
hex-prefixed form — both for a cached session and for one freshly fetched from
the SDK — where normalization prefixes 0x only when the address does not
already start with 0x and leaves an already-prefixed address unchanged. -/
theorem c2_account_normalization :
    (∀ s q u, ConnectorState.user s = some u →
      (getAccount s q).1 = .ok (normalizeAddress u.walletAddress)) ∧
    (∀ s resp, ConnectorState.user s = none →
      SdkUserResp.status resp = UserStatus.loggedInWalletInitialized →
      (getAccount s (.ok resp)).1 = .ok (normalizeAddress resp.walletAddress)) ∧
    (∀ a, strStartsWith a "0x" = true → normalizeAddress a = a) ∧
    (∀ a, strStartsWith a "0x" = false → normalizeAddress a = "0x" ++ a) := by
  refine ⟨?_, ?_, ?_, ?_⟩
  · intro s q u h
    rw [getAccount_cached s q u h]
  · intro s resp h hs
    rw [getAccount_fresh s resp h hs]
  · intro a h
    simp [normalizeAddress, h]
  · intro a h
    simp [normalizeAddress, h]

/-- Claim C2, witness: the connected fixture yields its address prefixed, a
bare address gains the prefix and an already-prefixed one is unchanged. -/
theorem c2_account_normalization_witness :
    (getAccount sConnected (.ok respLoggedOut)).1 = .ok (normalizeAddress "abc123") ∧
    normalizeAddress "abc123" = "0xabc123" ∧
    normalizeAddress "0xdef456" = "0xdef456" :=
  have h := c2_account_normalization
  ⟨h.1 sConnected (.ok respLoggedOut) user0 rfl,
   (h.2.2.2 "abc123" (by decide)).trans (by decide),
   h.2.2.1 "0xdef456" (by decide)⟩

/-- Claim C3: construction rejects an empty (falsy) client credential with the
configuration error, and likewise a chain name outside the supported set; the
constructor consumes no SDK response, so both failures are synchronous and
precede any network or SDK access. -/
theorem c3_constructor_validation :
    (∀ cfg b, Config.clientId cfg = "" → mkConnector cfg b = .error .noClientId) ∧
    (∀ cfg b, Config.clientId cfg ≠ "" → Config.chain cfg ∉ supportedChains →
      mkConnector cfg b = .error .unsupportedChain) :=
  ⟨mkConnector_noClientId, mkConnector_badChain⟩

/-- Claim C3, witness: an absent client id and the chain name Solana are both
rejected at construction. -/
theorem c3_constructor_validation_witness :
    mkConnector { clientId := "", chain := "Polygon", rpcEndpoint := none } true
      = .error .noClientId ∧
    mkConnector { clientId := "cid", chain := "Solana", rpcEndpoint := none } false
      = .error .unsupportedChain :=
  ⟨c3_constructor_validation.1 _ true rfl,
   c3_constructor_validation.2 _ false (by decide) (by decide)⟩

/-- Claim C4: when unauthenticated, a login that resolves with a status other
than fully-initialized makes connect reject with the user-rejection error, and
a login that itself fails (for example a cancellation) is wrapped the same
way; in both cases the state is unchanged, so the adapter is not marked
authorized and a subsequent isAuthorized still reports false. -/
theorem c4_connect_login_failure (s : ConnectorState) (qresp : SdkUserResp)
    (q2 q3 : Except String SdkUserResp)
    (h : s.user = none) (hs : qresp.status ≠ UserStatus.loggedInWalletInitialized) :
    (∀ lr : LoginResp, lr.userStatus ≠ UserStatus.loggedInWalletInitialized →
      connect s (.ok qresp) (.ok lr) q2 q3 =
        (.error (.userRejected .unexpectedUserStatus), s)) ∧
    (∀ m : String, connect s (.ok qresp) (.error m) q2 q3 =
        (.error (.userRejected (.sdkError m)), s)) ∧
    (isAuthorized s (.ok qresp)).1 = .ok false := by
  have hAuth := isAuthorized_noSession s qresp h hs
  refine ⟨?_, ?_, ?_⟩
  · intro lr hlr
    simp only [connect, hAuth, loginStep_false_badStatus lr hlr]
  · intro m
    simp only [connect, hAuth, loginStep_false_loginFail m]
  · rw [hAuth]

/-- Claim C4, witness: on the fresh fixture, a login resolving logged-in-on-a-
new-device status and a login failing with a cancellation message both reject
wrapped, leaving isAuthorized false. -/
theorem c4_connect_login_failure_witness :
    connect sFresh (.ok respLoggedOut) (.ok { userStatus := UserStatus.loggedInNewDevice })
        (.ok respInit) (.ok respInit) =
      (.error (.userRejected .unexpectedUserStatus), sFresh) ∧
    connect sFresh (.ok respLoggedOut) (.error "user closed the login modal")
        (.ok respInit) (.ok respInit) =
      (.error (.userRejected (.sdkError "user closed the login modal")), sFresh) ∧
    (isAuthorized sFresh (.ok respLoggedOut)).1 = .ok false :=
  have h := c4_connect_login_failure sFresh respLoggedOut (.ok respInit) (.ok respInit)
    rfl (by decide)
  ⟨h.1 _ (by decide), h.2.1 _, h.2.2⟩

/-- Claim C5: isAuthorized reports true exactly when a session is obtainable —
either already cached or freshly fetched with the fully-initialized status;
a freshly constructed connector has an empty cache, so with any
non-initialized SDK status it reports false. -/
theorem c5_isAuthorized_iff :
    (∀ s resp, ((isAuthorized s (.ok resp)).1 = .ok true ↔
      (ConnectorState.user s).isSome = true ∨
        SdkUserResp.status resp = UserStatus.loggedInWalletInitialized)) ∧
    (∀ cfg b s, mkConnector cfg b = .ok s → ConnectorState.user s = none) ∧
    (∀ cfg b s resp, mkConnector cfg b = .ok s →
      SdkUserResp.status resp ≠ UserStatus.loggedInWalletInitialized →
      (isAuthorized s (.ok resp)).1 = .ok false) := by
  refine ⟨?_, ?_, ?_⟩
  · intro s resp
    rcases h : s.user with _ | u
    · by_cases hs : resp.status = UserStatus.loggedInWalletInitialized
      · rw [isAuthorized_hit s resp h hs]
        simp [hs]
      · rw [isAuthorized_noSession s resp h hs]
        simp [hs]
    · rw [isAuthorized_cached s (.ok resp) u h]
      simp
  · intro cfg b s hmk
    exact (mkConnector_ok_fields cfg b s hmk).2.1
  · intro cfg b s resp hmk hs
    rw [isAuthorized_noSession s resp (mkConnector_ok_fields cfg b s hmk).2.1 hs]

/-- Claim C5, witness: the connected fixture is authorized; the freshly
constructed fixture has no session and is not authorized while the SDK
reports logged-out. -/
theorem c5_isAuthorized_iff_witness :
    (isAuthorized sConnected (.ok respLoggedOut)).1 = .ok true ∧
    sFresh.user = none ∧
    (isAuthorized sFresh (.ok respLoggedOut)).1 = .ok false :=
  have h := c5_isAuthorized_iff
  ⟨(h.1 sConnected respLoggedOut).mpr (Or.inl rfl),
   h.2.1 cfgOK false sFresh rfl,
   h.2.2 cfgOK false sFresh respLoggedOut rfl (by decide)⟩

/-- Claim C6: a successful disconnect performs the SDK logout (its outcome is
awaited: a failing logout propagates) and clears only the cached session;
afterwards, with the SDK reporting a non-initialized status, isAuthorized
is false and getAccount rejects with the unauthenticated-access error. -/
theorem c6_disconnect_clears_session (s : ConnectorState) (resp : SdkUserResp)
    (hs : resp.status ≠ UserStatus.loggedInWalletInitialized) :
    disconnect s (.ok ()) = (.ok (), { s with user := none }) ∧
    (∀ m, disconnect s (.error m) = (.error (.sdkError m), s)) ∧
    (isAuthorized { s with user := none } (.ok resp)).1 = .ok false ∧
    (getAccount { s with user := none } (.ok resp)).1 = .error .notLoggedIn := by
  refine ⟨rfl, fun m => rfl, ?_, ?_⟩
  · rw [isAuthorized_noSession _ resp rfl hs]
  · rw [getAccount_noSession _ resp rfl hs]

/-- Claim C6, witness: disconnecting the connected fixture clears the session;
a failing logout propagates; afterwards isAuthorized is false and getAccount
rejects. -/
theorem c6_disconnect_clears_session_witness :
    disconnect sConnected (.ok ()) = (.ok (), { sConnected with user := none }) ∧
    disconnect sConnected (.error "logout failed") =
      (.error (.sdkError "logout failed"), sConnected) ∧
    (isAuthorized { sConnected with user := none } (.ok respLoggedOut)).1 = .ok false ∧
    (getAccount { sConnected with user := none } (.ok respLoggedOut)).1 =
      .error .notLoggedIn :=
  have h := c6_disconnect_clears_session sConnected respLoggedOut (by decide)
  ⟨h.1, h.2.1 "logout failed", h.2.2.1, h.2.2.2⟩

/-- Claim C7: for every account-change delivery whose entries are well-formed
addresses (hex-prefixed, as the Address parameter type of the handler
declares), an empty list emits the disconnect event and a non-empty list
emits a change event carrying its first account. -/
theorem c7_accountsChanged_events (accounts : List String)
    (hva : ∀ a, a ∈ accounts → strStartsWith a "0x" = true) :
    (accounts = [] → onAccountsChanged accounts = .disconnected) ∧
    (∀ a rest, accounts = a :: rest → onAccountsChanged accounts = .changeAccount a) := by
  constructor
  · intro h
    subst h
    rfl
  · intro a rest h
    subst h
    have ha : strStartsWith a "0x" = true := hva a (by simp)
    have hne : a ≠ "" := by
      intro he
      subst he
      exact absurd ha (by decide)
    simp [onAccountsChanged, hne]

/-- Claim C7, witness: the empty delivery emits disconnect, a singleton
delivery emits change with that account. -/
theorem c7_accountsChanged_events_witness :
    onAccountsChanged [] = .disconnected ∧
    onAccountsChanged ["0xabc"] = .changeAccount "0xabc" :=
  ⟨(c7_accountsChanged_events [] (by intro a ha; cases ha)).1 rfl,
   (c7_accountsChanged_events ["0xabc"] (by decide)).2 "0xabc" [] rfl⟩

/-- Claim C8: getUser is memoized with a negative-result bypass — the cached
session is returned when present (untouched state, independent of the SDK);
otherwise the SDK response is cached only when fully initialized, and a
non-initialized response yields null without caching.  Across every operation
the cache is unchanged or set from empty to the payload of a
fully-initialized response the operation consumed, and only the explicit
disconnect ever clears it. -/
theorem c8_session_cache_invariant :
    (∀ s q u, ConnectorState.user s = some u → getUser s q = (.ok (some u), s)) ∧
    (∀ s resp, ConnectorState.user s = none →
      SdkUserResp.status resp = UserStatus.loggedInWalletInitialized →
      getUser s (.ok resp) =
        (.ok (some resp.toInitializedUser), { s with user := some resp.toInitializedUser })) ∧
    (∀ s resp, ConnectorState.user s = none →
      SdkUserResp.status resp ≠ UserStatus.loggedInWalletInitialized →
      getUser s (.ok resp) = (.ok none, s)) ∧
    (∀ op s, UserEvol s (runOp op s) (opUserQueries op) ∨
      (isDiscOp op = true ∧ (runOp op s).user = none)) ∧
    (∀ op s u, ConnectorState.user s = some u → (runOp op s).user = none →
      isDiscOp op = true) := by
  refine ⟨getUser_cached, getUser_hit, getUser_miss, runOp_userEvol, ?_⟩
  intro op s u hu hnone
  rcases runOp_userEvol op s with hev | ⟨hd, _⟩
  · rcases hev with h1 | ⟨hn, _⟩
    · rw [hnone, hu] at h1
      exact Option.noConfusion h1
    · rw [hu] at hn
      exact Option.noConfusion hn
  · exact hd

/-- Claim C8, witness: cache hit, positive caching, negative bypass and the
disconnect exception, each at a concrete input. -/
theorem c8_session_cache_invariant_witness :
    getUser sConnected (.ok respLoggedOut) = (.ok (some user0), sConnected) ∧
    getUser sFresh (.ok respInit) =
      (.ok (some respInit.toInitializedUser),
        { sFresh with user := some respInit.toInitializedUser }) ∧
    getUser sFresh (.ok respLoggedOut) = (.ok none, sFresh) ∧
    isDiscOp (Op.opDisconnect (.ok ())) = true :=
  have h := c8_session_cache_invariant
  ⟨h.1 sConnected (.ok respLoggedOut) user0 rfl,
   h.2.1 sFresh respInit rfl rfl,
   h.2.2.1 sFresh respLoggedOut rfl (by decide),
   h.2.2.2.2 (Op.opDisconnect (.ok ())) sConnected user0 rfl rfl⟩

/-- Claim C9: for every successfully constructed connector, getChainId
resolves with the numeric id of the chain looked up from the static
configuration, whatever the cached session, provider or listener state is —
no SDK response is consumed. -/
theorem c9_chainId_from_static_config (cfg : Config) (b : Bool) (s : ConnectorState)
    (h : mkConnector cfg b = .ok s) :
    ∃ c, getChain cfg.chain = .ok c ∧
      ∀ u p l, getChainId { s with user := u, provider := p, listeners := l } = .ok c.id := by
  obtain ⟨hchain, _, _, _, _, _, _, c, hg, _⟩ := mkConnector_ok_fields cfg b s h
  refine ⟨c, hg, fun u p l => ?_⟩
  simp only [getChainId]
  have hc2 : ({ s with user := u, provider := p, listeners := l } : ConnectorState).chain
      = cfg.chain := hchain
  rw [hc2, hg]
  rfl

/-- The fresh fixture with a session, a provider and a listener installed. -/
def sFreshBusy : ConnectorState :=
  { sFresh with
    user := some user0
    provider := some provider0
    listeners := [ListenerKind.accountsChanged] }

/-- Claim C9, witness: on the Polygon-configured fixture, getChainId resolves
with 137 no matter what session or provider state is installed. -/
theorem c9_chainId_from_static_config_witness :
    getChainId sFreshBusy = .ok 137 := by
  obtain ⟨c, hg, h⟩ := c9_chainId_from_static_config cfgOK false sFresh rfl
  have hgc : (Except.ok polygon : Except ConnError ChainDesc) = Except.ok c := hg
  injection hgc with hc
  have h2 := h (some user0) (some provider0) [ListenerKind.accountsChanged]
  rw [← hc] at h2
  exact h2

/-- Claim C10: disconnect mutates only the cached-session field — the record
update leaves the provider, the registered listeners and every other field
unchanged — and once a provider is cached, getProvider returns it with an
untouched state for every SDK response, performing no session check. -/
theorem c10_disconnect_frame (s : ConnectorState) :
    disconnect s (.ok ()) = (.ok (), { s with user := none }) ∧
    (∀ p q, ConnectorState.provider s = some p → getProvider s q = (.ok p, s)) :=
  ⟨rfl, fun p q hp => getProvider_cached s q p hp⟩

/-- Claim C10, witness: after disconnecting the connected fixture, getProvider
still resolves with the cached provider even when the SDK is unreachable. -/
theorem c10_disconnect_frame_witness :
    disconnect sConnected (.ok ()) = (.ok (), { sConnected with user := none }) ∧
    getProvider sDisconnected (.error "sdk unreachable") = (.ok provider0, sDisconnected) :=
  ⟨(c10_disconnect_frame sConnected).1,
   (c10_disconnect_frame sDisconnected).2 provider0 (.error "sdk unreachable") rfl⟩

end PaperWagmi
